import Mathlib

/-!
Shallow embedding of the thingzi-climate Node-RED node (src/node/climate.js).

Temperatures and setpoints are modelled as rationals (the source compares
IEEE doubles only by order and difference on configuration-sized values);
clock instants are integers (milliseconds, as returned by moment().diff).
A JavaScript value that may be null is an Option; parseFloat results that
are NaN (non-numeric input) are modelled explicitly where the source can
receive them.
-/

namespace ThingziClimate

/-- The three action values produced by the engine (strings in the source). -/
inductive Action
  | heating
  | cooling
  | none
  deriving DecidableEq, Repr

/-- The four internal mode values passed to handleModeChange. -/
inductive Mode
  | off
  | heat
  | cool
  | auto
  deriving DecidableEq, Repr

/-- config.climateType as selected in the editor; `other` covers any
string that is none of the four recognised values. -/
inductive ClimateType
  | both
  | heat
  | cool
  | manual
  | other
  deriving DecidableEq, Repr

/-- An inbound mode-set payload: the three recognised strings, or anything
else (the source compares with === against literal strings). -/
inductive ModeInput
  | off
  | heat
  | cool
  | other
  deriving DecidableEq, Repr

/-- An inbound action-set payload. -/
inductive ActionInput
  | heating
  | cooling
  | none
  | other
  deriving DecidableEq, Repr

/-- An inbound setpoint-set payload: null, a value whose parseFloat is NaN,
or a value that parses to the finite number q. -/
inductive SetInput
  | null
  | nonNumeric
  | numeric (q : ℚ)
  deriving DecidableEq, Repr

/-- Immutable node configuration (lines 28-73 of climate.js). Durations are
already converted to the units the source uses at the comparison sites:
keepAliveMs, tempValidMs, swapDelayMs in milliseconds; boostDurationMins in
minutes (the source multiplies by 60*1000 at the comparison). storedHeat and
storedCool are the host key-value store contents read by getStoredValue
(undefined mapped to Option.none); the source never writes them
(setHeatSetpoint and setCoolSetpoint have no callers). advertising is the
conjunction advertise && broker && topic tested by sendStatusUpdate. -/
structure Config where
  climateType : ClimateType
  tolerance : ℚ
  minTemp : ℚ
  maxTemp : ℚ
  defaultHeatSetpoint : ℚ
  defaultCoolSetpoint : ℚ
  keepAliveMs : ℤ
  cycleDelayMs : ℤ
  boostDurationMins : ℚ
  tempValidMs : ℤ
  swapDelayMs : ℤ
  advertising : Bool
  storedHeat : Option ℚ
  storedCool : Option ℚ
  deriving DecidableEq, Repr

/-- hasHeating (line 57): climateType both, heat or manual. -/
def Config.hasHeating (cfg : Config) : Bool :=
  match cfg.climateType with
  | ClimateType.both => true
  | ClimateType.heat => true
  | ClimateType.manual => true
  | _ => false

/-- hasCooling (line 61): climateType both, cool or manual. -/
def Config.hasCooling (cfg : Config) : Bool :=
  match cfg.climateType with
  | ClimateType.both => true
  | ClimateType.cool => true
  | ClimateType.manual => true
  | _ => false

/-- hasSetpoint (line 65): every climateType except manual. -/
def Config.hasSetpoint (cfg : Config) : Bool :=
  match cfg.climateType with
  | ClimateType.manual => false
  | _ => true

/-- defaultMode (lines 67-73): heat unless climateType is both (auto) or
cool (cool). -/
def Config.defaultMode (cfg : Config) : Mode :=
  match cfg.climateType with
  | ClimateType.both => Mode.auto
  | ClimateType.cool => Mode.cool
  | _ => Mode.heat

/-- getHeatSetpoint (line 173): stored value if present, else the default. -/
def getHeatSetpoint (cfg : Config) : ℚ :=
  cfg.storedHeat.getD cfg.defaultHeatSetpoint

/-- getCoolSetpoint (line 183): stored value if present, else the default. -/
def getCoolSetpoint (cfg : Config) : ℚ :=
  cfg.storedCool.getD cfg.defaultCoolSetpoint

/-- calculateAction (lines 155-170). The source reads heatSetpoint and
coolSetpoint from the node; here they are explicit arguments so the
function is closed over its five numeric inputs. The null checks of the
source are vacuous (parseFloat never returns null) and drop out of the
ℚ model. -/
def calculateAction (currentTemp targetTemp heatSetpoint coolSetpoint tolerance : ℚ) : Action :=
  if currentTemp < targetTemp - tolerance then
    if currentTemp < heatSetpoint - tolerance then Action.heating else Action.none
  else if targetTemp + tolerance < currentTemp then
    if coolSetpoint + tolerance < currentTemp then Action.cooling else Action.none
  else Action.none

/-- The setpoint object state created by initSetpoint (lines 302-324):
this.current and this.lastChange are undefined until the first accepted
set and are always written together, so they are one optional pair. -/
structure SetpointState where
  val : Option (ℚ × ℤ)
  deriving DecidableEq, Repr

/-- setpoint.set (lines 308-316): guarded by hasSetpoint and a non-null
input; the parsed value must be a number within [minTemp, maxTemp]. -/
def setpointSet (cfg : Config) (st : SetpointState) (inp : SetInput) (now : ℤ) : SetpointState :=
  if cfg.hasSetpoint = true ∧ inp ≠ SetInput.null then
    match inp with
    | SetInput.numeric q =>
      if cfg.minTemp ≤ q ∧ q ≤ cfg.maxTemp then ⟨some (q, now)⟩ else st
    | _ => st
  else st

/-- setpoint.get (lines 317-322): the current value while hasSetpoint holds
and it is no older than tempValidMs; otherwise the captured default. -/
def setpointGet (cfg : Config) (defaultSetpoint : ℚ) (st : SetpointState) (now : ℤ) : ℚ :=
  match st.val with
  | Option.some ct =>
    if cfg.hasSetpoint = true ∧ now - ct.2 ≤ cfg.tempValidMs then ct.1 else defaultSetpoint
  | Option.none => defaultSetpoint

/-- The defaultSetpoint captured once by initSetpoint (line 306) from
defaultMode and the stored values at initialization. -/
def initDefaultSetpoint (cfg : Config) : ℚ :=
  if cfg.defaultMode = Mode.heat then getHeatSetpoint cfg else getCoolSetpoint cfg

/-- The mutable per-node state (lines 75-81 plus the objects installed by
init). setpoint is Option because initSetpoint returns early when
hasSetpoint is false (lines 303-305), leaving node.setpoint undefined;
calling a method on it then throws a TypeError, modelled by the `threw`
flags below. override.current starts undefined, which override.get
already reports as false, so it is a plain Bool. -/
structure ClimateState where
  lastChange : Option Mode
  lastAction : Option Action
  lastTemp : Option ℚ
  lastTempTime : Option ℤ
  lastHeatTime : Option ℤ
  lastCoolTime : Option ℤ
  lastSend : Option ℤ
  setpoint : Option SetpointState
  override : Bool
  starting : Bool
  deriving DecidableEq, Repr

/-- isConnected (lines 140-142): moment().diff(lastSend || 0) < keepAliveMs.
A null lastSend is replaced by the epoch (0). -/
def isConnected (cfg : Config) (lastSend : Option ℤ) (now : ℤ) : Bool :=
  decide (now - lastSend.getD 0 < cfg.keepAliveMs)

/-- updateTemperature (lines 223-236). The argument is the parseFloat of the
raw input: Option.none covers null (the null test) and NaN (which fails
temp >= minTemp). lastTempTime || 0 is the getD 0. -/
def updateTemperature (cfg : Config) (s : ClimateState) (temp : Option ℚ) (now : ℤ) :
    ClimateState :=
  match temp with
  | Option.none => s
  | Option.some t =>
    let jumpOk : Bool :=
      match s.lastTemp with
      | Option.none => false
      | Option.some p => decide (|t - p| ≤ cfg.tolerance)
    if cfg.minTemp ≤ t ∧ t ≤ cfg.maxTemp ∧
        (s.lastTemp = Option.none ∨ jumpOk = true ∨
          cfg.swapDelayMs < now - s.lastTempTime.getD 0) then
      { s with lastTemp := some t, lastTempTime := some now }
    else s

/-- updateAction (lines 239-246). When lastTemp is null the action is set to
none and the setpoint is never consulted. Otherwise the target is
node.setpoint.get(); if node.setpoint is undefined (manual climateType)
that access throws, reported in the Bool component. -/
def updateAction (cfg : Config) (s : ClimateState) (now : ℤ) : ClimateState × Bool :=
  match s.lastTemp with
  | Option.none => ({ s with lastAction := some Action.none }, false)
  | Option.some t =>
    match s.setpoint with
    | Option.none => (s, true)
    | Option.some sp =>
      let targetTemp := setpointGet cfg (initDefaultSetpoint cfg) sp now
      ({ s with lastAction := some (calculateAction t targetTemp (getHeatSetpoint cfg)
          (getCoolSetpoint cfg) cfg.tolerance) }, false)

/-- The result of running one inbound operation or one timer tick:
the state afterwards, whether updateNode emitted the internal update
message, whether a TypeError escaped, and whether the tick reached the
recomputation branch past the early-return guard. -/
structure StepResult where
  state : ClimateState
  emitted : Bool
  threw : Bool
  recomputed : Bool
  deriving DecidableEq, Repr

/-- A call of node.setpoint.set as every caller writes it: when the
setpoint object was never created the call throws. -/
def setpointDispatch (cfg : Config) (sp : Option SetpointState) (inp : SetInput) (now : ℤ) :
    Option SetpointState × Bool :=
  match sp with
  | Option.none => (Option.none, true)
  | Option.some st => (some (setpointSet cfg st inp now), false)

/-- handleModeChange (lines 276-299). The off branch sets the action to
none, calls setpoint.set(null) — a no-op behind the null guard of set,
or a TypeError when the object is missing — clears the override and
emits. Other modes optionally preload the setpoint store (auto default
mode only), recompute the action and emit. -/
def handleModeChange (cfg : Config) (s : ClimateState) (newMode : Mode) (now : ℤ) :
    StepResult :=
  let s1 : ClimateState :=
    { s with lastChange := some newMode, lastHeatTime := Option.none,
             lastCoolTime := Option.none }
  if newMode = Mode.off then
    let s2 := { s1 with lastAction := some Action.none }
    match s2.setpoint with
    | Option.none => ⟨s2, false, true, false⟩
    | Option.some sp =>
      let s3 := { s2 with setpoint := some (setpointSet cfg sp SetInput.null now),
                          override := false }
      ⟨s3, true, false, false⟩
  else
    let spAfter : Option SetpointState × Bool :=
      if cfg.defaultMode = Mode.auto then
        if newMode = Mode.heat then
          setpointDispatch cfg s1.setpoint (SetInput.numeric (getHeatSetpoint cfg)) now
        else if newMode = Mode.cool then
          setpointDispatch cfg s1.setpoint (SetInput.numeric (getCoolSetpoint cfg)) now
        else (s1.setpoint, false)
      else (s1.setpoint, false)
    if spAfter.2 = true then ⟨{ s1 with setpoint := spAfter.1 }, false, true, false⟩
    else
      let ua := updateAction cfg { s1 with setpoint := spAfter.1 } now
      if ua.2 = true then ⟨ua.1, false, true, false⟩
      else ⟨ua.1, true, false, false⟩

/-- mode.set (lines 362-379): off always; heat and cool behind their
capability flags; everything else — including heat or cool without the
capability — falls through to auto. -/
def modeSet (cfg : Config) (s : ClimateState) (m : ModeInput) (now : ℤ) : StepResult :=
  match m with
  | ModeInput.off => handleModeChange cfg s Mode.off now
  | ModeInput.heat =>
    if cfg.hasHeating = true then handleModeChange cfg s Mode.heat now
    else handleModeChange cfg s Mode.auto now
  | ModeInput.cool =>
    if cfg.hasCooling = true then handleModeChange cfg s Mode.cool now
    else handleModeChange cfg s Mode.auto now
  | ModeInput.other => handleModeChange cfg s Mode.auto now

/-- action.set (lines 339-349): heating and cooling behind their capability
flags map to mode changes, none maps to auto, anything else — including a
capability-failed heating or cooling — does nothing at all. -/
def actionSet (cfg : Config) (s : ClimateState) (a : ActionInput) (now : ℤ) : StepResult :=
  match a with
  | ActionInput.heating =>
    if cfg.hasHeating = true then handleModeChange cfg s Mode.heat now
    else ⟨s, false, false, false⟩
  | ActionInput.cooling =>
    if cfg.hasCooling = true then handleModeChange cfg s Mode.cool now
    else ⟨s, false, false, false⟩
  | ActionInput.none => handleModeChange cfg s Mode.auto now
  | ActionInput.other => ⟨s, false, false, false⟩

/-- One tick of the interval body installed by initUpdateLoop
(lines 421-448). The two moment() calls inside a tick (lines 432 and 437)
are microseconds apart and are modelled as the same instant `now`; the
re-fed temperature parseFloat(node.lastTemp) is NaN when lastTemp is null,
which updateTemperature rejects, hence the Option is passed through. -/
def tick (cfg : Config) (s : ClimateState) (now : ℤ) : StepResult :=
  if s.starting = true ∨ isConnected cfg s.lastSend now = false then
    ⟨s, false, false, false⟩
  else
    let ua := updateAction cfg s now
    if ua.2 = true then ⟨ua.1, false, true, true⟩
    else
      let s1 := ua.1
      let s2 := updateTemperature cfg s1 s1.lastTemp now
      let s3 :=
        if s2.lastAction = some Action.heating then { s2 with lastHeatTime := some now }
        else if s2.lastAction = some Action.cooling then { s2 with lastCoolTime := some now }
        else s2
      let overBoost : Option ℤ → Bool := fun ot =>
        match ot with
        | Option.some t0 => decide (cfg.boostDurationMins * 60 * 1000 ≤ ((now - t0 : ℤ) : ℚ))
        | Option.none => false
      let s4 :=
        if s3.lastAction = some Action.heating then
          if overBoost s3.lastHeatTime = true then { s3 with lastAction := some Action.none }
          else s3
        else if s3.lastAction = some Action.cooling then
          if overBoost s3.lastCoolTime = true then { s3 with lastAction := some Action.none }
          else s3
        else s3
      let s5 := if cfg.advertising = true then { s4 with lastSend := some now } else s4
      ⟨s5, true, false, true⟩

/-- The inbound operations the node reacts to (the input handler at
lines 84-106 and the transport handler at lines 109-116), plus a tick of
the evaluation cycle. Each carries the instant at which it runs. -/
inductive Step
  | tick (now : ℤ)
  | modeSet (m : ModeInput) (now : ℤ)
  | setpointSetStep (v : SetInput) (now : ℤ)
  | actionSetStep (a : ActionInput) (now : ℤ)
  | overrideSetStep (b : Bool)
  deriving DecidableEq, Repr

/-- Whether a step is an evaluation-cycle tick. -/
def Step.isTick : Step → Bool
  | Step.tick _ => true
  | _ => false

/-- The instant a step runs at (override.set never reads the clock). -/
def stepTime : Step → ℤ
  | Step.tick now => now
  | Step.modeSet _ now => now
  | Step.setpointSetStep _ now => now
  | Step.actionSetStep _ now => now
  | Step.overrideSetStep _ => 0

/-- Dispatch of one step against the node state. override.set (line 330)
stores state === true; setpoint set requests go through the possibly
missing setpoint object. -/
def applyStep (cfg : Config) (s : ClimateState) : Step → StepResult
  | Step.tick now => tick cfg s now
  | Step.modeSet m now => modeSet cfg s m now
  | Step.setpointSetStep v now =>
    let d := setpointDispatch cfg s.setpoint v now
    ⟨{ s with setpoint := d.1 }, false, d.2, false⟩
  | Step.actionSetStep a now => actionSet cfg s a now
  | Step.overrideSetStep b => ⟨{ s with override := b }, false, false, false⟩

/-- The state right after node.init() returns (lines 75-81 and 450-459):
all previous-state fields null, the setpoint object created only when
hasSetpoint holds, starting already reset to false (init completes
synchronously before the first interval tick can fire). -/
def initialState (cfg : Config) : ClimateState :=
  { lastChange := Option.none
    lastAction := Option.none
    lastTemp := Option.none
    lastTempTime := Option.none
    lastHeatTime := Option.none
    lastCoolTime := Option.none
    lastSend := Option.none
    setpoint := if cfg.hasSetpoint = true then some ⟨Option.none⟩ else Option.none
    override := false
    starting := false }

/-- A heat-only node with representative editor values: tolerance 0.2,
range [5, 30], defaults 18/25, keepAlive 10 min, cycleDelay 60 s,
boostDuration 30 min, tempValid 60 min, swapDelay 30 min. -/
def cfgHeatOnly : Config :=
  { climateType := ClimateType.heat
    tolerance := 1/5
    minTemp := 5
    maxTemp := 30
    defaultHeatSetpoint := 18
    defaultCoolSetpoint := 25
    keepAliveMs := 600000
    cycleDelayMs := 60000
    boostDurationMins := 30
    tempValidMs := 3600000
    swapDelayMs := 1800000
    advertising := true
    storedHeat := Option.none
    storedCool := Option.none }

/-- The same values on a dual-capability (climateType both) node. -/
def cfgBoth : Config :=
  { cfgHeatOnly with climateType := ClimateType.both }

/-- The same values on a cool-only node. -/
def cfgCoolOnly : Config :=
  { cfgHeatOnly with climateType := ClimateType.cool }

/-- The same values on a manual node (no setpoint capability). -/
def cfgManual : Config :=
  { cfgHeatOnly with climateType := ClimateType.manual }

/-- Modelled from the claim C4 wording, for comparison with the source
function updateTemperature: accept iff the reading is non-null (and not
NaN, which the Option already absorbs), within [minTemp, maxTemp], and
either no prior value is recorded, or the jump from the prior value is
within tolerance, or the time since the last accepted reading exceeds
swapDelay. -/
def specTempAccept (cfg : Config) (s : ClimateState) (temp : Option ℚ) (now : ℤ) : Bool :=
  match temp with
  | Option.none => false
  | Option.some t =>
    decide (cfg.minTemp ≤ t ∧ t ≤ cfg.maxTemp) &&
    (decide (s.lastTemp = Option.none) ||
      (match s.lastTemp with
        | Option.some p => decide (|t - p| ≤ cfg.tolerance)
        | Option.none => false) ||
      (match s.lastTempTime with
        | Option.some t0 => decide (cfg.swapDelayMs < now - t0)
        | Option.none => false))

/-- node.setpoint.get() as read on a node state: Option.none when the
setpoint object is missing (hasSetpoint false), else the stored getter
with the init-time captured default. -/
def nodeSetpointGet (cfg : Config) (s : ClimateState) (now : ℤ) : Option ℚ :=
  s.setpoint.map (fun sp => setpointGet cfg (initDefaultSetpoint cfg) sp now)

/-- Whether the setpoint store is in its unset-or-stale state: never set,
or set strictly more than tempValidMs ago. -/
def setpointExpired (cfg : Config) (sp : SetpointState) (now : ℤ) : Bool :=
  match sp.val with
  | Option.none => true
  | Option.some ct => decide (cfg.tempValidMs < now - ct.2)

/-- A heat-only node that has been heating continuously since instant 0:
the previous tick stamped lastHeatTime, the last status publish was
500 s ago (connected), the accepted temperature is 16 with the setpoint
store unset, so the target is the default heat setpoint 18. -/
def heatingLongState : ClimateState :=
  { lastChange := some Mode.heat
    lastAction := some Action.heating
    lastTemp := some 16
    lastTempTime := some 0
    lastHeatTime := some 0
    lastCoolTime := Option.none
    lastSend := some 9500000
    setpoint := some ⟨Option.none⟩
    override := false
    starting := false }

/-- The heat-only node after a setpoint set of 21 at instant 0. -/
def afterSetpoint21 : StepResult :=
  applyStep cfgHeatOnly (initialState cfgHeatOnly)
    (Step.setpointSetStep (SetInput.numeric 21) 0)

/-- The same node after a mode-off request at instant 5. -/
def afterModeOff : StepResult :=
  applyStep cfgHeatOnly afterSetpoint21.state (Step.modeSet ModeInput.off 5)

/-- A cool-only node receiving a heat mode request it has no capability
for, at instant 0. -/
def coolNodeHeatRequest : StepResult :=
  applyStep cfgCoolOnly (initialState cfgCoolOnly) (Step.modeSet ModeInput.heat 0)

/-- A dual-capability node right after an accepted heat mode request at
instant 0 (which auto-loads the setpoint store with the heat setpoint). -/
def bothNodeInHeatMode : StepResult :=
  applyStep cfgBoth (initialState cfgBoth) (Step.modeSet ModeInput.heat 0)

/-- updateAction never touches lastSend, on any state. -/
theorem updateAction_lastSend (cfg : Config) (s : ClimateState) (now : ℤ) :
    (updateAction cfg s now).1.lastSend = s.lastSend := by
  unfold updateAction
  cases s.lastTemp with
  | none => rfl
  | some t =>
    cases s.setpoint with
    | none => rfl
    | some sp => rfl

/-- handleModeChange never touches lastSend and never enters the
evaluation-cycle recompute branch. -/
theorem handleModeChange_lastSend (cfg : Config) (s : ClimateState) (nm : Mode) (now : ℤ) :
    (handleModeChange cfg s nm now).state.lastSend = s.lastSend ∧
    (handleModeChange cfg s nm now).recomputed = false := by
  unfold handleModeChange
  by_cases hoff : nm = Mode.off
  · cases hsp : s.setpoint with
    | none => simp [hoff, hsp]
    | some sp => simp [hoff, hsp]
  · by_cases hauto : cfg.defaultMode = Mode.auto
    · by_cases hh : nm = Mode.heat
      · cases hsp : s.setpoint with
        | none => simp [hoff, hauto, hh, hsp, setpointDispatch]
        | some sp =>
          simp [hoff, hauto, hh, hsp, setpointDispatch]
          split_ifs <;> simp [updateAction_lastSend]
      · by_cases hc : nm = Mode.cool
        · cases hsp : s.setpoint with
          | none => simp [hoff, hauto, hh, hc, hsp, setpointDispatch]
          | some sp =>
            simp [hoff, hauto, hh, hc, hsp, setpointDispatch]
            split_ifs <;> simp [updateAction_lastSend]
        · simp [hoff, hauto, hh, hc]
          split_ifs <;> simp [updateAction_lastSend]
    · simp [hoff, hauto]
      split_ifs <;> simp [updateAction_lastSend]

/-- C1. For all numeric inputs and tolerance ≥ 0, calculateAction returns
heating iff currentTemp < targetTemp - tolerance and
currentTemp < heatSetpoint - tolerance, cooling iff
currentTemp > targetTemp + tolerance and
currentTemp > coolSetpoint + tolerance, and none in every other case. -/
theorem calculateAction_matches_spec (ct tt hsp csp tol : ℚ) (htol : 0 ≤ tol) :
    (calculateAction ct tt hsp csp tol = Action.heating ↔
      ct < tt - tol ∧ ct < hsp - tol) ∧
    (calculateAction ct tt hsp csp tol = Action.cooling ↔
      tt + tol < ct ∧ csp + tol < ct) ∧
    (calculateAction ct tt hsp csp tol = Action.none ↔
      ¬(ct < tt - tol ∧ ct < hsp - tol) ∧ ¬(tt + tol < ct ∧ csp + tol < ct)) := by
  unfold calculateAction
  split_ifs with h1 h2 h3 h4
  · have hnc : ¬(tt + tol < ct ∧ csp + tol < ct) := fun h => by linarith [h.1]
    simp [h1, h2, hnc]
  · have hna : ¬(ct < tt - tol ∧ ct < hsp - tol) := fun h => h2 h.2
    have hnc : ¬(tt + tol < ct ∧ csp + tol < ct) := fun h => by linarith [h.1]
    simp [hna, hnc]
  · have hna : ¬(ct < tt - tol ∧ ct < hsp - tol) := fun h => h1 h.1
    simp [h3, h4, hna]
  · have hna : ¬(ct < tt - tol ∧ ct < hsp - tol) := fun h => h1 h.1
    have hnc : ¬(tt + tol < ct ∧ csp + tol < ct) := fun h => h4 h.2
    simp [hna, hnc]
  · have hna : ¬(ct < tt - tol ∧ ct < hsp - tol) := fun h => h1 h.1
    have hnc : ¬(tt + tol < ct ∧ csp + tol < ct) := fun h => h3 h.1
    simp [hna, hnc]

/-- Witness for C1 at currentTemp 16, targetTemp 18, heatSetpoint 18,
coolSetpoint 25, tolerance 0.2: a heating-side evaluation. -/
theorem calculateAction_matches_spec_witness :
    (calculateAction 16 18 18 25 (1/5) = Action.heating ↔
      (16 : ℚ) < 18 - 1/5 ∧ (16 : ℚ) < 18 - 1/5) ∧
    (calculateAction 16 18 18 25 (1/5) = Action.cooling ↔
      (18 : ℚ) + 1/5 < 16 ∧ (25 : ℚ) + 1/5 < 16) ∧
    (calculateAction 16 18 18 25 (1/5) = Action.none ↔
      ¬((16 : ℚ) < 18 - 1/5 ∧ (16 : ℚ) < 18 - 1/5) ∧
      ¬((18 : ℚ) + 1/5 < 16 ∧ (25 : ℚ) + 1/5 < 16)) :=
  calculateAction_matches_spec 16 18 18 25 (1/5) (by norm_num)

/-- C8. isConnected returns true iff now - lastSend is strictly below
keepAliveMs; in particular at exactly keepAliveMs elapsed it returns
false. Stated as a closed equation, so the strict-< boundary is part of
the decide condition, and instantiated at the boundary instant. -/
theorem isConnected_strict_keepalive (cfg : Config) (t now : ℤ) :
    isConnected cfg (some t) now = decide (now - t < cfg.keepAliveMs) ∧
    isConnected cfg (some t) (t + cfg.keepAliveMs) = false := by
  refine ⟨rfl, ?_⟩
  simp [isConnected]

/-- C10. When no temperature was ever accepted, updateAction sets the
action to none, leaves every other field unchanged, and throws nothing:
the result does not mention the setpoint store or calculateAction. -/
theorem updateAction_without_temperature (cfg : Config) (s : ClimateState) (now : ℤ)
    (h : s.lastTemp = Option.none) :
    updateAction cfg s now = ({ s with lastAction := some Action.none }, false) := by
  unfold updateAction
  rw [h]

/-- Witness for C10 on the freshly initialized heat-only node. -/
theorem updateAction_without_temperature_witness :
    updateAction cfgHeatOnly (initialState cfgHeatOnly) 0 =
      ({ initialState cfgHeatOnly with lastAction := some Action.none }, false) :=
  updateAction_without_temperature cfgHeatOnly (initialState cfgHeatOnly) 0 (by decide)

/-- C4. updateTemperature records the reading with the current timestamp
exactly when the claim condition (specTempAccept) holds, and otherwise
leaves both the stored value and its timestamp unchanged. The hypothesis
rules out the unreachable states where a value was recorded without a
timestamp (the source always writes them together). -/
theorem updateTemperature_matches_spec (cfg : Config) (s : ClimateState)
    (temp : Option ℚ) (now : ℤ)
    (hwf : s.lastTempTime = Option.none → s.lastTemp = Option.none) :
    updateTemperature cfg s temp now =
      if specTempAccept cfg s temp now = true then
        { s with lastTemp := temp, lastTempTime := some now }
      else s := by
  unfold updateTemperature specTempAccept
  cases temp with
  | none => simp
  | some t =>
    cases htt : s.lastTempTime with
    | none =>
      have hlt : s.lastTemp = Option.none := hwf htt
      rw [hlt]
      by_cases hr : cfg.minTemp ≤ t ∧ t ≤ cfg.maxTemp
      · simp [hr]
      · simp [hr]
    | some t0 =>
      cases hlt : s.lastTemp with
      | none =>
        by_cases hr : cfg.minTemp ≤ t ∧ t ≤ cfg.maxTemp
        · simp [hr]
        · simp [hr]
      | some p =>
        by_cases hr : cfg.minTemp ≤ t ∧ t ≤ cfg.maxTemp
        · by_cases hj : |t - p| ≤ cfg.tolerance
          · simp [hr, hj]
          · by_cases hsw : cfg.swapDelayMs < now - t0
            · simp [hr, hj, hsw]
            · simp [hr, hj, hsw]
        · rcases not_and_or.mp hr with hA | hB
          · simp [hA]
          · simp [hB]

/-- Witness for C4: the initialized heat-only node accepts a first reading
of 16 degrees at instant 0. -/
theorem updateTemperature_matches_spec_witness :
    updateTemperature cfgHeatOnly (initialState cfgHeatOnly) (some 16) 0 =
      if specTempAccept cfgHeatOnly (initialState cfgHeatOnly) (some 16) 0 = true then
        { initialState cfgHeatOnly with lastTemp := some 16, lastTempTime := some 0 }
      else initialState cfgHeatOnly :=
  updateTemperature_matches_spec cfgHeatOnly (initialState cfgHeatOnly) (some 16) 0
    (by decide)

/-- C2. Counter-evidence: on a connected heat-only node that has been
heating continuously since instant 0 — far longer than the 30-minute
boostDuration (conjunct three states 10^7 ms since the run timestamp is at
least boostDuration in ms) — the evaluation-cycle tick still leaves the
action heating, because line 432 restamps lastHeatTime to now before the
cutoff at line 438 compares against it, so the measured elapsed run time
is always the width of one tick. The cutoff branch is dead for every
positive boostDuration. -/
theorem tick_boost_cutoff_dead :
    (tick cfgHeatOnly heatingLongState 10000000).state.lastAction = some Action.heating ∧
    (tick cfgHeatOnly heatingLongState 10000000).state.lastHeatTime = some 10000000 ∧
    cfgHeatOnly.boostDurationMins * 60 * 1000 ≤ ((10000000 - 0 : ℤ) : ℚ) ∧
    isConnected cfgHeatOnly heatingLongState.lastSend 10000000 = true := by
  norm_num [tick, updateAction, updateTemperature, calculateAction, setpointGet,
    initDefaultSetpoint, getHeatSetpoint, getCoolSetpoint, isConnected,
    heatingLongState, cfgHeatOnly, Config.hasSetpoint, Config.defaultMode,
    Config.hasHeating, Config.hasCooling]

/-- C3. Counter-evidence: after a setpoint set of 21 and then a mode-off
request, the action is none and the override false as claimed, but the
setpoint store still holds the value 21 set at instant 0 and get() keeps
returning 21 rather than the default 18: the setpoint.set(null) call of
the off branch is silently dropped by the null guard of set. -/
theorem modeOff_setpoint_survives :
    afterModeOff.state.lastChange = some Mode.off ∧
    afterModeOff.state.lastAction = some Action.none ∧
    afterModeOff.state.override = false ∧
    afterModeOff.state.setpoint = some ⟨some (21, 0)⟩ ∧
    nodeSetpointGet cfgHeatOnly afterModeOff.state 5 = some 21 ∧
    initDefaultSetpoint cfgHeatOnly = 18 := by
  decide

/-- C5. Counterexample: a heat mode request on a node without heating
capability is not silently dropped — it falls through to an auto mode
change, mutating the state and emitting an update. -/
theorem modeSet_incapable_not_dropped :
    coolNodeHeatRequest.state ≠ initialState cfgCoolOnly ∧
    coolNodeHeatRequest.state.lastChange = some Mode.auto ∧
    coolNodeHeatRequest.emitted = true ∧
    cfgCoolOnly.hasHeating = false := by
  decide

/-- C5 amended: action-set requests naming an unavailable capability are
silently dropped with no state change and no emission, while mode-set
requests naming an unavailable mode are instead handled exactly like a
mode-auto request. -/
theorem capability_requests_amended (cfg : Config) (s : ClimateState) (a : ActionInput)
    (m : ModeInput) (now : ℤ)
    (ha : (a = ActionInput.heating ∧ cfg.hasHeating = false) ∨
          (a = ActionInput.cooling ∧ cfg.hasCooling = false))
    (hm : (m = ModeInput.heat ∧ cfg.hasHeating = false) ∨
          (m = ModeInput.cool ∧ cfg.hasCooling = false)) :
    actionSet cfg s a now = ⟨s, false, false, false⟩ ∧
    modeSet cfg s m now = handleModeChange cfg s Mode.auto now := by
  constructor
  · rcases ha with ⟨rfl, h⟩ | ⟨rfl, h⟩ <;> simp [actionSet, h]
  · rcases hm with ⟨rfl, h⟩ | ⟨rfl, h⟩ <;> simp [modeSet, h]

/-- Witness for the amended C5 on the cool-only node. -/
theorem capability_requests_amended_witness :
    actionSet cfgCoolOnly (initialState cfgCoolOnly) ActionInput.heating 0 =
      ⟨initialState cfgCoolOnly, false, false, false⟩ ∧
    modeSet cfgCoolOnly (initialState cfgCoolOnly) ModeInput.heat 0 =
      handleModeChange cfgCoolOnly (initialState cfgCoolOnly) Mode.auto 0 :=
  capability_requests_amended cfgCoolOnly (initialState cfgCoolOnly) ActionInput.heating
    ModeInput.heat 0 (Or.inl ⟨rfl, by decide⟩) (Or.inl ⟨rfl, by decide⟩)

/-- C6. Counterexample: a dual-capability node in heat mode whose setpoint
has expired reads back the cool setpoint 25, not the heat setpoint 18 —
the fallback default is captured once at init time from defaultMode
(auto, hence the cool setpoint) and never follows the current mode. -/
theorem expired_setpoint_ignores_mode :
    bothNodeInHeatMode.state.lastChange = some Mode.heat ∧
    nodeSetpointGet cfgBoth bothNodeInHeatMode.state 3600001 = some 25 ∧
    getHeatSetpoint cfgBoth = 18 ∧
    getCoolSetpoint cfgBoth = 25 := by
  decide

/-- C6 amended: whenever the setpoint store is unset or its value is older
than tempValidMs, get() returns the single default captured at
initialization — the heat setpoint when the configured defaultMode is
heat, otherwise the cool setpoint — independent of the current mode. -/
theorem setpointGet_expired_returns_init_default (cfg : Config) (sp : SetpointState)
    (now : ℤ) (h : setpointExpired cfg sp now = true) :
    setpointGet cfg (initDefaultSetpoint cfg) sp now = initDefaultSetpoint cfg ∧
    initDefaultSetpoint cfg =
      (if cfg.defaultMode = Mode.heat then getHeatSetpoint cfg else getCoolSetpoint cfg) := by
  refine ⟨?_, rfl⟩
  unfold setpointGet
  cases hv : sp.val with
  | none => rfl
  | some ct =>
    have h2 : cfg.tempValidMs < now - ct.2 := by
      unfold setpointExpired at h
      rw [hv] at h
      exact of_decide_eq_true h
    have hcond : ¬(cfg.hasSetpoint = true ∧ now - ct.2 ≤ cfg.tempValidMs) := by
      rintro ⟨-, hle⟩
      linarith
    show (if cfg.hasSetpoint = true ∧ now - ct.2 ≤ cfg.tempValidMs then ct.1
      else initDefaultSetpoint cfg) = initDefaultSetpoint cfg
    rw [if_neg hcond]

/-- Witness for the amended C6: the dual-capability node with an unset
store returns the init-captured default 25. -/
theorem setpointGet_expired_returns_init_default_witness :
    setpointGet cfgBoth (initDefaultSetpoint cfgBoth) ⟨Option.none⟩ 0 =
      initDefaultSetpoint cfgBoth ∧
    initDefaultSetpoint cfgBoth =
      (if cfgBoth.defaultMode = Mode.heat then getHeatSetpoint cfgBoth
        else getCoolSetpoint cfgBoth) :=
  setpointGet_expired_returns_init_default cfgBoth ⟨Option.none⟩ 0 (by decide)

/-- C7. Counterexample: on a manual node (hasSetpoint false) the setpoint
object is never created, so an in-range numeric setpoint-set request
throws a TypeError instead of being a silent no-op. -/
theorem setpoint_request_without_capability_throws :
    (initialState cfgManual).setpoint = Option.none ∧
    (applyStep cfgManual (initialState cfgManual)
      (Step.setpointSetStep (SetInput.numeric 20) 0)).threw = true ∧
    cfgManual.hasSetpoint = false := by
  decide

/-- C7 amended: when the setpoint object exists, a set request that is
null, non-numeric, or outside [minTemp, maxTemp] leaves the store
unchanged and raises nothing; when the object is missing (hasSetpoint
false at init) every set request throws. -/
theorem setpointSet_invalid_is_noop (cfg : Config) (st : SetpointState) (inp : SetInput)
    (now : ℤ)
    (h : inp = SetInput.null ∨ inp = SetInput.nonNumeric ∨
      (∃ q, inp = SetInput.numeric q ∧ (q < cfg.minTemp ∨ cfg.maxTemp < q))) :
    setpointSet cfg st inp now = st ∧
    setpointDispatch cfg (some st) inp now = (some st, false) ∧
    setpointDispatch cfg Option.none inp now = (Option.none, true) := by
  have h1 : setpointSet cfg st inp now = st := by
    rcases h with rfl | rfl | ⟨q, rfl, hq⟩
    · simp [setpointSet]
    · unfold setpointSet
      split_ifs <;> rfl
    · unfold setpointSet
      split_ifs with hg
      · have hn : ¬(cfg.minTemp ≤ q ∧ q ≤ cfg.maxTemp) := by
          rcases hq with hlo | hhi
          · rintro ⟨hc, -⟩
            linarith
          · rintro ⟨-, hc⟩
            linarith
        show (if cfg.minTemp ≤ q ∧ q ≤ cfg.maxTemp then
          (⟨some (q, now)⟩ : SetpointState) else st) = st
        rw [if_neg hn]
      · rfl
  refine ⟨h1, ?_, rfl⟩
  show (some (setpointSet cfg st inp now), false) = (some st, false)
  rw [h1]

/-- Witness for the amended C7: an out-of-range set of 99 on the heat-only
node is dropped, and the same request on a missing object throws. -/
theorem setpointSet_invalid_is_noop_witness :
    setpointSet cfgHeatOnly ⟨some (21, 0)⟩ (SetInput.numeric 99) 5 = ⟨some (21, 0)⟩ ∧
    setpointDispatch cfgHeatOnly (some ⟨some (21, 0)⟩) (SetInput.numeric 99) 5 =
      (some ⟨some (21, 0)⟩, false) ∧
    setpointDispatch cfgHeatOnly Option.none (SetInput.numeric 99) 5 =
      (Option.none, true) :=
  setpointSet_invalid_is_noop cfgHeatOnly ⟨some (21, 0)⟩ (SetInput.numeric 99) 5
    (Or.inr (Or.inr ⟨99, rfl, Or.inr (by decide)⟩))

/-- C9. With lastSend still null and the clock at or past keepAliveMs (the
realistic situation: moment() is epoch milliseconds, far above any
configured keepalive), isConnected is false; the evaluation-cycle tick
early-returns without reaching its recompute branch and changes nothing;
the freshly initialized node starts with lastSend null; and every step —
a tick at such an instant, or any inbound command — preserves
lastSend = null and stays out of the recompute branch, so the node can
never become connected. -/
theorem never_connected_invariant (cfg : Config) (s : ClimateState) (now : ℤ) (step : Step)
    (hs : s.lastSend = Option.none)
    (hnow : cfg.keepAliveMs ≤ now)
    (hstep : step.isTick = false ∨ cfg.keepAliveMs ≤ stepTime step) :
    isConnected cfg s.lastSend now = false ∧
    tick cfg s now = ⟨s, false, false, false⟩ ∧
    (initialState cfg).lastSend = Option.none ∧
    (applyStep cfg s step).state.lastSend = Option.none ∧
    (applyStep cfg s step).recomputed = false := by
  have hconn : ∀ m : ℤ, cfg.keepAliveMs ≤ m → isConnected cfg s.lastSend m = false := by
    intro m hm
    rw [hs]
    simp only [isConnected, Option.getD]
    rw [decide_eq_false_iff_not]
    omega
  have htick : ∀ m : ℤ, cfg.keepAliveMs ≤ m → tick cfg s m = ⟨s, false, false, false⟩ := by
    intro m hm
    unfold tick
    rw [if_pos (Or.inr (hconn m hm))]
  refine ⟨hconn now hnow, htick now hnow, rfl, ?_⟩
  cases step with
  | tick n =>
    rcases hstep with hbad | hn
    · simp [Step.isTick] at hbad
    · rw [applyStep, htick n hn]
      exact ⟨hs, rfl⟩
  | modeSet m n =>
    rw [applyStep]
    unfold modeSet
    have hpres : ∀ nm : Mode,
        (handleModeChange cfg s nm n).state.lastSend = Option.none ∧
        (handleModeChange cfg s nm n).recomputed = false := by
      intro nm
      refine ⟨?_, (handleModeChange_lastSend cfg s nm n).2⟩
      rw [(handleModeChange_lastSend cfg s nm n).1, hs]
    cases m with
    | off => exact hpres Mode.off
    | heat =>
      by_cases hcap : cfg.hasHeating = true
      · rw [if_pos hcap]
        exact hpres Mode.heat
      · rw [if_neg hcap]
        exact hpres Mode.auto
    | cool =>
      by_cases hcap : cfg.hasCooling = true
      · rw [if_pos hcap]
        exact hpres Mode.cool
      · rw [if_neg hcap]
        exact hpres Mode.auto
    | other => exact hpres Mode.auto
  | setpointSetStep v n =>
    rw [applyStep]
    exact ⟨hs, rfl⟩
  | actionSetStep a n =>
    rw [applyStep]
    unfold actionSet
    have hpres : ∀ nm : Mode,
        (handleModeChange cfg s nm n).state.lastSend = Option.none ∧
        (handleModeChange cfg s nm n).recomputed = false := by
      intro nm
      refine ⟨?_, (handleModeChange_lastSend cfg s nm n).2⟩
      rw [(handleModeChange_lastSend cfg s nm n).1, hs]
    cases a with
    | heating =>
      by_cases hcap : cfg.hasHeating = true
      · rw [if_pos hcap]
        exact hpres Mode.heat
      · rw [if_neg hcap]
        exact ⟨hs, rfl⟩
    | cooling =>
      by_cases hcap : cfg.hasCooling = true
      · rw [if_pos hcap]
        exact hpres Mode.cool
      · rw [if_neg hcap]
        exact ⟨hs, rfl⟩
    | none => exact hpres Mode.auto
    | other => exact ⟨hs, rfl⟩
  | overrideSetStep b =>
    rw [applyStep]
    exact ⟨hs, rfl⟩

/-- Witness for C9: the freshly initialized heat-only node, the clock at
keepAliveMs, and a pending other-mode command. -/
theorem never_connected_invariant_witness :
    isConnected cfgHeatOnly (initialState cfgHeatOnly).lastSend 600000 = false ∧
    tick cfgHeatOnly (initialState cfgHeatOnly) 600000 =
      ⟨initialState cfgHeatOnly, false, false, false⟩ ∧
    (initialState cfgHeatOnly).lastSend = Option.none ∧
    (applyStep cfgHeatOnly (initialState cfgHeatOnly)
      (Step.modeSet ModeInput.other 600000)).state.lastSend = Option.none ∧
    (applyStep cfgHeatOnly (initialState cfgHeatOnly)
      (Step.modeSet ModeInput.other 600000)).recomputed = false :=
  never_connected_invariant cfgHeatOnly (initialState cfgHeatOnly) 600000
    (Step.modeSet ModeInput.other 600000) (by decide) (by decide) (Or.inl (by decide))

end ThingziClimate
